import Mathlib

/-!
Shallow embedding of yolo-damage-detection-api (src/main.py) and proofs about it.

The embedding translates the deduplicated logical core of src/main.py:
the classification table DAMAGE_CONFIG, the per-detection classification and
damage-record construction inside the detect_damage handler, the statistics /
urgency aggregation, the readiness gate and error mapping of the handler, the
artifact-download section of download_and_load_model, and the background-load
trigger. Floats are modelled as rationals (no claim computes with them);
strings are modelled as Lean strings (the labels involved are ASCII, and the
Portuguese display strings compare by code point exactly as in Python).
-/

namespace YoloDamage

/-- Embedding of DAMAGE_CONFIG['severity_map'] (src/main.py lines 48-55):
a literal dict, looked up with .get, hence a partial map from label to severity. -/
def severity_map (l : String) : Option String :=
  if l = "shattered_glass" then some "Severo"
  else if l = "broken_lamp" then some "Severo"
  else if l = "flat_tire" then some "Severo"
  else if l = "dent" then some "Moderado"
  else if l = "scratch" then some "Leve"
  else if l = "crack" then some "Leve"
  else none

/-- Embedding of DAMAGE_CONFIG['location_map'] (src/main.py lines 56-63). -/
def location_map (l : String) : Option String :=
  if l = "shattered_glass" then some "Para-brisa/Vidros"
  else if l = "flat_tire" then some "Rodas"
  else if l = "broken_lamp" then some "Faróis/Lanternas"
  else if l = "dent" then some "Carroceria"
  else if l = "scratch" then some "Pintura"
  else if l = "crack" then some "Para-choque/Plásticos"
  else none

/-- Embedding of DAMAGE_CONFIG['class_names'] (src/main.py lines 64-71). -/
def class_names (l : String) : Option String :=
  if l = "shattered_glass" then some "Vidro Quebrado"
  else if l = "broken_lamp" then some "Lâmpada Quebrada"
  else if l = "flat_tire" then some "Pneu Vazio"
  else if l = "dent" then some "Amassado"
  else if l = "scratch" then some "Risco"
  else if l = "crack" then some "Rachadura"
  else none

/-- Python str.replace on the single-character pattern, as in
class_name.replace('_', ' ') (src/main.py line 308): every underscore becomes
a space. -/
def underscoreToSpace (s : String) : String :=
  ⟨s.data.map (fun c => if c = '_' then ' ' else c)⟩

/-- Helper for pythonTitle: walks the characters carrying whether the previous
character was alphabetic. -/
def titleAux : Bool → List Char → List Char
  | _, [] => []
  | prevAlpha, c :: cs =>
    let alpha := c.isAlpha
    let c2 := if alpha then (if prevAlpha then c.toLower else c.toUpper) else c
    c2 :: titleAux alpha cs

/-- Python str.title() restricted to ASCII input (the YOLO class labels are
ASCII identifiers): the first letter of each maximal run of letters is
uppercased, the rest lowercased. Embeds .title() at src/main.py line 308. -/
def pythonTitle (s : String) : String :=
  ⟨titleAux false s.data⟩

/-- One raw YOLO detection as built at src/main.py lines 292-297. -/
structure RawDetection where
  label : String
  confidence : Rat
  bbox : List Rat
deriving DecidableEq

/-- One entry of damage_analysis as built at src/main.py lines 310-318.
The Python dict key 'class' is rendered as the field label. -/
structure DamageRecord where
  damage_id : String
  label : String
  class_display : String
  confidence : Rat
  severity : String
  location : String
  bbox : List Rat
deriving DecidableEq

/-- Python format spec 03d for a natural number: decimal digits, left-padded
with zeros to width at least 3 (src/main.py line 311). -/
def pad3 (n : Nat) : String :=
  if n < 10 then "00" ++ toString n
  else if n < 100 then "0" ++ toString n
  else toString n

/-- The loop body at src/main.py lines 304-318 for loop index i (0-based):
classify one detection and build its DamageRecord. -/
def classifyAt (i : Nat) (d : RawDetection) : DamageRecord :=
  { damage_id := "DMG_" ++ pad3 (i + 1)
    label := d.label
    class_display := (class_names d.label).getD (pythonTitle (underscoreToSpace d.label))
    confidence := d.confidence
    severity := (severity_map d.label).getD "Indefinido"
    location := (location_map d.label).getD "N/A"
    bbox := d.bbox }

/-- The enumerate loop at src/main.py lines 303-318, carrying the running
index. -/
def damageAnalysisGo : Nat → List RawDetection → List DamageRecord
  | _, [] => []
  | i, d :: ds => classifyAt i d :: damageAnalysisGo (i + 1) ds

/-- damage_analysis: the full list of DamageRecords for one request
(src/main.py lines 303-318). -/
def damage_analysis (ds : List RawDetection) : List DamageRecord :=
  damageAnalysisGo 0 ds

/-! ## Aggregation (src/main.py lines 320-360) -/

/-- The guarded increment at src/main.py lines 325-327: the dict
severity_count is modelled as an association list, and the counter for key k
is bumped only when k is already a key (the dict membership test). -/
def incKey (m : List (String × Nat)) (k : String) : List (String × Nat) :=
  m.map (fun p => if p.1 = k then (p.1, p.2 + 1) else p)

/-- severity_count initial value (src/main.py line 321). -/
def initialSeverityCount : List (String × Nat) :=
  [("Leve", 0), ("Moderado", 0), ("Severo", 0)]

/-- The statistics loop at src/main.py lines 324-330, carrying the loop state
(severity_count, damage_types): count known severities, accumulate distinct
display names in first-occurrence order. -/
def foldStatsGo :
    List (String × Nat) → List String → List DamageRecord →
      List (String × Nat) × List String
  | sc, dt, [] => (sc, dt)
  | sc, dt, r :: rs =>
    foldStatsGo (incKey sc r.severity)
      (if r.class_display ∈ dt then dt else dt ++ [r.class_display]) rs

/-- Dict read severity_count[k] with default 0, used to express the urgency
conditions at src/main.py lines 334 and 336. -/
def getCount (m : List (String × Nat)) (k : String) : Nat :=
  ((m.find? (fun p => p.1 == k)).map Prod.snd).getD 0

/-- Urgency derivation (src/main.py lines 332-337). -/
def urgency (sc : List (String × Nat)) : String :=
  if getCount sc "Severo" > 0 then "Alta"
  else if getCount sc "Moderado" > 0 then "Média"
  else "Baixa"

/-- Lexicographic code-point comparison of character lists: the order Python
uses to compare strings in sorted(damage_types) (src/main.py line 358). -/
def strLeAux : List Char → List Char → Bool
  | [], _ => true
  | _ :: _, [] => false
  | a :: as, b :: bs =>
    if a.toNat < b.toNat then true
    else if b.toNat < a.toNat then false
    else strLeAux as bs

/-- Python string ≤: lexicographic by code point. -/
def strLe (a b : String) : Bool :=
  strLeAux a.data b.data

theorem strLeAux_total (as bs : List Char) :
    strLeAux as bs = true ∨ strLeAux bs as = true := by
  induction as generalizing bs with
  | nil => exact Or.inl rfl
  | cons a as ih =>
    cases bs with
    | nil => exact Or.inr rfl
    | cons b bs =>
      simp only [strLeAux]
      rcases Nat.lt_trichotomy a.toNat b.toNat with h | h | h
      · exact Or.inl (by rw [if_pos h])
      · have h1 : ¬a.toNat < b.toNat := by omega
        have h2 : ¬b.toNat < a.toNat := by omega
        rcases ih bs with ht | ht
        · exact Or.inl (by rw [if_neg h1, if_neg h2]; exact ht)
        · exact Or.inr (by rw [if_neg h2, if_neg h1]; exact ht)
      · exact Or.inr (by rw [if_pos h])

theorem strLeAux_trans (as bs cs : List Char) (h1 : strLeAux as bs = true)
    (h2 : strLeAux bs cs = true) : strLeAux as cs = true := by
  induction as generalizing bs cs with
  | nil => rfl
  | cons a as ih =>
    cases bs with
    | nil => simp [strLeAux] at h1
    | cons b bs =>
      cases cs with
      | nil => simp [strLeAux] at h2
      | cons c cs =>
        simp only [strLeAux] at h1 h2 ⊢
        by_cases hab : a.toNat < b.toNat
        · by_cases hbc : b.toNat < c.toNat
          · rw [if_pos (by omega)]
          · rw [if_neg hbc] at h2
            by_cases hcb : c.toNat < b.toNat
            · rw [if_pos hcb] at h2; exact absurd h2 (by simp)
            · rw [if_pos (by omega)]
        · rw [if_neg hab] at h1
          by_cases hba : b.toNat < a.toNat
          · rw [if_pos hba] at h1; exact absurd h1 (by simp)
          · rw [if_neg hba] at h1
            have hab2 : a.toNat = b.toNat := by omega
            by_cases hbc : b.toNat < c.toNat
            · rw [if_pos (by omega)]
            · rw [if_neg hbc] at h2
              by_cases hcb : c.toNat < b.toNat
              · rw [if_pos hcb] at h2; exact absurd h2 (by simp)
              · rw [if_neg hcb] at h2
                rw [if_neg (by omega), if_neg (by omega)]
                exact ih bs cs h1 h2

theorem strLe_total (a b : String) : strLe a b = true ∨ strLe b a = true :=
  strLeAux_total a.data b.data

theorem strLe_trans (a b c : String) (h1 : strLe a b = true)
    (h2 : strLe b c = true) : strLe a c = true :=
  strLeAux_trans a.data b.data c.data h1 h2

instance : IsTotal String (fun a b => strLe a b = true) :=
  ⟨strLe_total⟩

instance : IsTrans String (fun a b => strLe a b = true) :=
  ⟨strLe_trans⟩

/-- The damage_analysis block of the response (src/main.py lines 355-360). -/
structure DamageAnalysisReport where
  total_damages : Nat
  severity_count : List (String × Nat)
  damage_types : List String
  repair_urgency : String
deriving DecidableEq

/-- Statistics plus response assembly for the damage_analysis block
(src/main.py lines 320-337 and 355-360): fold the records, sort the distinct
display names (Python sorted on strings is ascending code-point order). -/
def aggregate (records : List DamageRecord) : DamageAnalysisReport :=
  let st := foldStatsGo initialSeverityCount [] records
  { total_damages := records.length
    severity_count := st.1
    damage_types := List.insertionSort (fun a b => strLe a b = true) st.2
    repair_urgency := urgency st.1 }

/-- Count of records carrying a given severity string. -/
def severityCountOf (k : String) (records : List DamageRecord) : Nat :=
  records.countP (fun r => r.severity == k)

theorem incKey_concrete (a b c : Nat) (k : String) :
    incKey [("Leve", a), ("Moderado", b), ("Severo", c)] k =
      [("Leve", a + (if "Leve" = k then 1 else 0)),
       ("Moderado", b + (if "Moderado" = k then 1 else 0)),
       ("Severo", c + (if "Severo" = k then 1 else 0))] := by
  simp only [incKey, List.map]
  refine congrArg₂ _ ?_ (congrArg₂ _ ?_ (congrArg₂ _ ?_ rfl)) <;>
    split <;> simp_all

theorem add_ite_countP (k : String) (r : DamageRecord) (a : Nat)
    (rs : List DamageRecord) :
    a + (if k = r.severity then 1 else 0) + severityCountOf k rs =
      a + severityCountOf k (r :: rs) := by
  simp only [severityCountOf, List.countP_cons]
  rcases eq_or_ne r.severity k with h | h
  · simp only [h, if_pos rfl, beq_self_eq_true, if_true]
    omega
  · simp only [if_neg (Ne.symm h), beq_eq_false_iff_ne, h, not_false_iff,
      if_neg, ite_eq_right_iff]
    simp [h]

theorem foldStatsGo_sc (rs : List DamageRecord) (a b c : Nat) (dt : List String) :
    (foldStatsGo [("Leve", a), ("Moderado", b), ("Severo", c)] dt rs).1 =
      [("Leve", a + severityCountOf "Leve" rs),
       ("Moderado", b + severityCountOf "Moderado" rs),
       ("Severo", c + severityCountOf "Severo" rs)] := by
  induction rs generalizing a b c dt with
  | nil => simp [foldStatsGo, severityCountOf]
  | cons r rs ih =>
    simp only [foldStatsGo, incKey_concrete]
    rw [ih]
    simp only [List.cons.injEq, Prod.mk.injEq, true_and, and_true]
    exact ⟨add_ite_countP _ r a rs, add_ite_countP _ r b rs,
      add_ite_countP _ r c rs⟩

theorem foldStatsGo_dt_mem (rs : List DamageRecord) (sc : List (String × Nat))
    (dt : List String) (s : String) :
    s ∈ (foldStatsGo sc dt rs).2 ↔ s ∈ dt ∨ ∃ r ∈ rs, r.class_display = s := by
  induction rs generalizing sc dt with
  | nil => simp [foldStatsGo]
  | cons r rs ih =>
    simp only [foldStatsGo, ih, List.mem_cons]
    constructor
    · rintro (h | h)
      · split at h
        · exact Or.inl h
        · rcases List.mem_append.mp h with h | h
          · exact Or.inl h
          · exact Or.inr ⟨r, Or.inl rfl, (List.mem_singleton.mp h).symm⟩
      · rcases h with ⟨x, hx, hxs⟩
        exact Or.inr ⟨x, Or.inr hx, hxs⟩
    · rintro (h | ⟨x, hx | hx, hxs⟩)
      · refine Or.inl ?_
        split
        · exact h
        · exact List.mem_append.mpr (Or.inl h)
      · subst hx
        refine Or.inl ?_
        split
        · subst hxs; assumption
        · subst hxs; exact List.mem_append.mpr (Or.inr (List.mem_singleton.mpr rfl))
      · exact Or.inr ⟨x, hx, hxs⟩

theorem foldStatsGo_dt_nodup (rs : List DamageRecord) (sc : List (String × Nat))
    (dt : List String) (h : dt.Nodup) : (foldStatsGo sc dt rs).2.Nodup := by
  induction rs generalizing sc dt with
  | nil => exact h
  | cons r rs ih =>
    refine ih _ _ ?_
    split
    · exact h
    · refine List.Nodup.append h (List.nodup_singleton _) ?_
      intro a ha hb
      rw [List.mem_singleton] at hb
      subst hb
      simp_all

/-! ## The /detect handler (src/main.py lines 224-386) -/

/-- The content-type guard at src/main.py line 238:
`not file.content_type or not file.content_type.startswith('image/')`
(None and the empty string are falsy in Python). -/
def contentTypeOk : Option String → Bool
  | none => false
  | some s => !(s == "") && List.isPrefixOf "image/".data s.data

/-- The parts of the 200 response body the claims are about (src/main.py
lines 342-374): the damage_analysis block, the damages array, and the
optional annotated_image field (absent when the key is never set). -/
structure DetectResponse where
  damage_analysis : DamageAnalysisReport
  damages : List DamageRecord
  annotated_image : Option String
deriving DecidableEq

/-- Outcome of the handler: an HTTPException with status and detail, or a 200
JSON response. -/
inductive HandlerResult where
  | errorResp (status : Nat) (detail : String)
  | okResp (body : DetectResponse)
deriving DecidableEq

/-- Embedding of the detect_damage handler (src/main.py lines 224-386) at the
granularity the claims need. External effects are parameters:
pipeline is the outcome of read + decode + resize + YOLO inference (lines
260-300) — an exception anywhere in that prefix of the try block is a single
error case caught by the catch-all at line 384; renderResult is the outcome
of results[0].plot + JPEG encode + base64 (lines 368-373), whose exception is
caught locally at line 377. model_ready and model_error are the globals read
at lines 243-244. -/
def detect_damage (content_type : Option String) (model_ready : Bool)
    (model_error : Option String) (include_annotated_image : Bool)
    (pipeline : Except String (List RawDetection))
    (renderResult : Except String String) : HandlerResult :=
  if ¬contentTypeOk content_type then
    .errorResp 400 "Arquivo deve ser uma imagem"
  else if ¬model_ready then
    match model_error with
    | some e => .errorResp 500 ("Erro no modelo: " ++ e)
    | none =>
      .errorResp 503 "Modelo ainda carregando. Aguarde alguns minutos e tente novamente."
  else
    match pipeline with
    | .error e => .errorResp 500 ("Erro ao processar imagem: " ++ e)
    | .ok detections =>
      let analysis := damage_analysis detections
      let report := aggregate analysis
      let annotated :=
        if include_annotated_image ∧ detections.length > 0 then
          match renderResult with
          | .ok s => some ("data:image/jpeg;base64," ++ s)
          | .error _ => none
        else none
      .okResp { damage_analysis := report, damages := analysis,
                annotated_image := annotated }

/-! ## The artifact download (src/main.py lines 107-129) -/

/-- The filesystem as seen by the download section: the bytes at model_path
(none if no file), and how many network requests have been issued. -/
structure FetchState where
  fileAt : Option (List Nat)
  networkCalls : Nat
deriving DecidableEq

/-- Outcome of the streamed GET: either all chunks arrive, or the connection
fails after a prefix of chunks was delivered (and written). Empty chunks are
skipped by the code (`if chunk:`); flattening makes that immaterial. -/
inductive NetResult where
  | ok (chunks : List (List Nat))
  | failAfter (delivered : List (List Nat)) (err : String)
deriving DecidableEq

/-- Embedding of the download section of download_and_load_model
(src/main.py lines 107-129): if a file exists at model_path, skip entirely
(no network call); otherwise open model_path itself for writing and stream
chunks into it as they arrive, so an exception mid-stream leaves the
delivered prefix on disk at model_path and propagates the error. There is no
temporary file and no rename in the code. -/
def ensure_artifact (net : NetResult) (s : FetchState) :
    FetchState × Option String :=
  match s.fileAt with
  | some _ => (s, none)
  | none =>
    match net with
    | .ok chunks =>
      (⟨some chunks.flatten, s.networkCalls + 1⟩, none)
    | .failAfter delivered err =>
      (⟨some delivered.flatten, s.networkCalls + 1⟩, some err)

/-! ## The background load (src/main.py lines 95-166) -/

/-- The module globals touched by download_and_load_model, plus the
filesystem flag for os.path.exists(model_path). -/
structure Globals where
  fileExists : Bool
  model_ready : Bool
  model_error : Option String
deriving DecidableEq

/-- Embedding of one invocation of download_and_load_model (src/main.py
lines 95-158), the body run by the background trigger start_model_loading.
External outcomes are parameters: opencv_ok (test_opencv, line 101),
download (the streamed GET, executed only when the file is absent, lines
109-129), yolo (YOLO deserialize + warm-up inference, lines 134-150).
Returns the new globals and whether the YOLO deserialize + warm-up section
executed. Note the body consults no loading/ready state before running: the
only guard anywhere is the file-existence check in front of the download. -/
def download_and_load_model (opencv_ok : Bool) (download : Except String Unit)
    (yolo : Except String Unit) (s : Globals) : Globals × Bool :=
  if ¬opencv_ok then
    ({ s with model_error := some "OpenCV não está funcionando corretamente" },
     false)
  else
    match s.fileExists, download with
    | false, .error e => ({ s with model_error := some e }, false)
    | false, .ok _ =>
      match yolo with
      | .ok _ => ({ s with fileExists := true, model_ready := true }, true)
      | .error e =>
        ({ s with fileExists := true, model_error := some ("Erro YOLO: " ++ e) },
         true)
    | true, _ =>
      match yolo with
      | .ok _ => ({ s with model_ready := true }, true)
      | .error e => ({ s with model_error := some ("Erro YOLO: " ++ e) }, true)

/-- The module-level trigger (src/main.py line 166): exactly one background
thread running start_model_loading is spawned, once, at import time. -/
def startupLoadThreads : Nat := 1

/-- Globals at process start (src/main.py lines 75-77, file not yet
downloaded). -/
def initialGlobals : Globals :=
  { fileExists := false, model_ready := false, model_error := none }

/-! ## Supporting lemmas for the aggregation claims -/

theorem urgency_concrete (x y z : Nat) :
    urgency [("Leve", x), ("Moderado", y), ("Severo", z)] =
      if 0 < z then "Alta" else if 0 < y then "Média" else "Baixa" := rfl

theorem aggregate_severity_count (records : List DamageRecord) :
    (aggregate records).severity_count =
      [("Leve", severityCountOf "Leve" records),
       ("Moderado", severityCountOf "Moderado" records),
       ("Severo", severityCountOf "Severo" records)] := by
  simp only [aggregate, initialSeverityCount]
  rw [foldStatsGo_sc]
  simp

theorem three_counts_le (records : List DamageRecord) :
    severityCountOf "Leve" records + severityCountOf "Moderado" records +
      severityCountOf "Severo" records ≤ records.length := by
  induction records with
  | nil => simp [severityCountOf]
  | cons r rs ih =>
    simp only [severityCountOf, List.countP_cons, List.length_cons] at *
    by_cases h1 : r.severity = "Leve" <;> by_cases h2 : r.severity = "Moderado" <;>
      by_cases h3 : r.severity = "Severo" <;> simp_all <;> omega

theorem aggregate_damage_types (records : List DamageRecord) :
    (aggregate records).damage_types =
      List.insertionSort (fun a b => strLe a b = true)
        (foldStatsGo initialSeverityCount [] records).2 := by
  simp [aggregate]

/-- C2: for every sequence of DamageRecords the aggregated repair_urgency is
Alta when some record has severity Severo, otherwise Média when some record
has severity Moderado, otherwise Baixa — depending only on those two counts,
not on confidences or on how many records carry each severity. -/
theorem urgency_tie_break (records : List DamageRecord) :
    (aggregate records).repair_urgency =
      (if 0 < severityCountOf "Severo" records then "Alta"
       else if 0 < severityCountOf "Moderado" records then "Média"
       else "Baixa") := by
  simp only [aggregate, initialSeverityCount]
  rw [foldStatsGo_sc]
  simp only [Nat.zero_add]
  exact urgency_concrete _ _ _

/-- C3: classification is total, and for a label in none of the three maps of
DAMAGE_CONFIG it yields severity Indefinido, location N/A, and the label with
underscores replaced by spaces and then title-cased as display name, while a
label in the table yields the table entries. -/
theorem classifier_fallback_total (label : String) (conf : Rat) (bb : List Rat)
    (i : Nat) :
    (severity_map label = none →
      (classifyAt i ⟨label, conf, bb⟩).severity = "Indefinido" ∧
      (classifyAt i ⟨label, conf, bb⟩).location = "N/A" ∧
      (classifyAt i ⟨label, conf, bb⟩).class_display =
        pythonTitle (underscoreToSpace label)) ∧
    (∀ s, severity_map label = some s →
      (classifyAt i ⟨label, conf, bb⟩).severity = s ∧
      location_map label = some (classifyAt i ⟨label, conf, bb⟩).location ∧
      class_names label = some (classifyAt i ⟨label, conf, bb⟩).class_display) := by
  constructor
  · intro h
    have hl : location_map label = none := by
      simp only [severity_map] at h
      simp only [location_map]
      split_ifs at h ⊢ <;> simp_all
    have hn : class_names label = none := by
      simp only [severity_map] at h
      simp only [class_names]
      split_ifs at h ⊢ <;> simp_all
    simp [classifyAt, h, hl, hn]
  · intro s h
    have hl : (location_map label).isSome = true := by
      simp only [severity_map] at h
      simp only [location_map]
      split_ifs at h ⊢ <;> simp_all
    have hn : (class_names label).isSome = true := by
      simp only [severity_map] at h
      simp only [class_names]
      split_ifs at h ⊢ <;> simp_all
    rcases Option.isSome_iff_exists.mp hl with ⟨loc, hloc⟩
    rcases Option.isSome_iff_exists.mp hn with ⟨nm, hnm⟩
    simp [classifyAt, h, hloc, hnm]

theorem classifier_fallback_total_witness :
    severity_map "missing_part" = none ∧
    (classifyAt 0 ⟨"missing_part", 1/2, []⟩).severity = "Indefinido" ∧
    (classifyAt 0 ⟨"missing_part", 1/2, []⟩).location = "N/A" ∧
    (classifyAt 0 ⟨"missing_part", 1/2, []⟩).class_display = "Missing Part" := by
  have h := (classifier_fallback_total "missing_part" (1/2) [] 0).1 (by decide)
  refine ⟨by decide, h.1, h.2.1, ?_⟩
  rw [h.2.2]
  decide

/-- C4: the report has total_damages equal to the number of records; the
severity_count association list has exactly the keys Leve, Moderado, Severo,
holding exactly the per-severity counts (so records with severity Indefinido
are excluded from it), and those values sum to at most total_damages; the
damage_types list is the duplicate-free, lexicographically sorted list of the
display names occurring among the records (Indefinido records included). -/
theorem aggregation_invariant (records : List DamageRecord) :
    (aggregate records).total_damages = records.length ∧
    (aggregate records).severity_count.map Prod.fst =
      ["Leve", "Moderado", "Severo"] ∧
    (aggregate records).severity_count =
      [("Leve", severityCountOf "Leve" records),
       ("Moderado", severityCountOf "Moderado" records),
       ("Severo", severityCountOf "Severo" records)] ∧
    severityCountOf "Leve" records + severityCountOf "Moderado" records +
      severityCountOf "Severo" records ≤ (aggregate records).total_damages ∧
    List.Sorted (fun a b => strLe a b = true) (aggregate records).damage_types ∧
    (aggregate records).damage_types.Nodup ∧
    (∀ s, s ∈ (aggregate records).damage_types ↔
      ∃ r ∈ records, r.class_display = s) := by
  refine ⟨rfl, ?_, aggregate_severity_count records, ?_, ?_, ?_, ?_⟩
  · rw [aggregate_severity_count]
    rfl
  · exact three_counts_le records
  · rw [aggregate_damage_types]
    exact List.sorted_insertionSort _ _
  · rw [aggregate_damage_types]
    exact ((List.perm_insertionSort _ _).nodup_iff).mpr
      (foldStatsGo_dt_nodup records _ _ List.nodup_nil)
  · intro s
    rw [aggregate_damage_types, List.mem_insertionSort,
      foldStatsGo_dt_mem records _ _ s]
    simp

theorem damageAnalysisGo_map_id (n : Nat) (ds : List RawDetection) :
    (damageAnalysisGo n ds).map DamageRecord.damage_id =
      (List.range' (n + 1) ds.length).map (fun i => "DMG_" ++ pad3 i) := by
  induction ds generalizing n with
  | nil => rfl
  | cons d ds ih =>
    simp only [damageAnalysisGo, List.map_cons, List.length_cons,
      List.range'_succ, ih, classifyAt]

/-- C5: the i-th DamageRecord (1-based, in detection order) carries
damage_id "DMG_" followed by i zero-padded to 3 digits; and the scenario
scratch, flat_tire, scratch yields ids DMG_001, DMG_002, DMG_003 in order,
severity_count Leve 2 / Moderado 0 / Severo 1, urgency Alta and exactly the
2 distinct sorted display names — for every confidence and bbox values. -/
theorem ordinal_identifiers :
    (∀ ds : List RawDetection,
      (damage_analysis ds).map DamageRecord.damage_id =
        (List.range' 1 ds.length).map (fun i => "DMG_" ++ pad3 i)) ∧
    (∀ c1 c2 c3 : Rat, ∀ b1 b2 b3 : List Rat,
      (damage_analysis [⟨"scratch", c1, b1⟩, ⟨"flat_tire", c2, b2⟩,
          ⟨"scratch", c3, b3⟩]).map DamageRecord.damage_id =
        ["DMG_001", "DMG_002", "DMG_003"] ∧
      (aggregate (damage_analysis [⟨"scratch", c1, b1⟩, ⟨"flat_tire", c2, b2⟩,
          ⟨"scratch", c3, b3⟩])).severity_count =
        [("Leve", 2), ("Moderado", 0), ("Severo", 1)] ∧
      (aggregate (damage_analysis [⟨"scratch", c1, b1⟩, ⟨"flat_tire", c2, b2⟩,
          ⟨"scratch", c3, b3⟩])).repair_urgency = "Alta" ∧
      (aggregate (damage_analysis [⟨"scratch", c1, b1⟩, ⟨"flat_tire", c2, b2⟩,
          ⟨"scratch", c3, b3⟩])).damage_types = ["Pneu Vazio", "Risco"] ∧
      (aggregate (damage_analysis [⟨"scratch", c1, b1⟩, ⟨"flat_tire", c2, b2⟩,
          ⟨"scratch", c3, b3⟩])).damage_types.length = 2) := by
  constructor
  · intro ds
    exact damageAnalysisGo_map_id 0 ds
  · intro c1 c2 c3 b1 b2 b3
    exact ⟨rfl, rfl, rfl, rfl, rfl⟩

/-- C6: a /detect request with a valid image content-type arriving while the
model is not ready fails immediately (hence within any wait bound): with a
recorded load failure it gets status 500 carrying the error detail, otherwise
status 503 with the human-readable retry hint; in neither case is a 200
response with a report produced. -/
theorem model_state_error_mapping (ct : Option String) (e : String)
    (inc : Bool) (p : Except String (List RawDetection))
    (r : Except String String) (hct : contentTypeOk ct = true) :
    detect_damage ct false (some e) inc p r =
      .errorResp 500 ("Erro no modelo: " ++ e) ∧
    detect_damage ct false none inc p r =
      .errorResp 503
        "Modelo ainda carregando. Aguarde alguns minutos e tente novamente." ∧
    (∀ merr : Option String, ∀ body : DetectResponse,
      detect_damage ct false merr inc p r ≠ .okResp body) := by
  refine ⟨by simp [detect_damage, hct], by simp [detect_damage, hct], ?_⟩
  intro merr body
  cases merr <;> simp [detect_damage, hct]

theorem model_state_error_mapping_witness :
    contentTypeOk (some "image/jpeg") = true ∧
    detect_damage (some "image/jpeg") false (some "Erro YOLO: boom") true
        (.ok []) (.ok "") =
      .errorResp 500 "Erro no modelo: Erro YOLO: boom" ∧
    detect_damage (some "image/jpeg") false none true (.ok []) (.ok "") =
      .errorResp 503
        "Modelo ainda carregando. Aguarde alguns minutos e tente novamente." := by
  have h := model_state_error_mapping (some "image/jpeg") "Erro YOLO: boom"
    true (.ok []) (.ok "") (by decide)
  exact ⟨by decide, h.1, h.2.1⟩

/-- C8 as the code behaves (amended): an upload whose declared content-type
is an image type but whose bytes fail to decode is caught by the generic
exception handler and produces status 500 with the prefixed error detail,
not the 400 user-error status (400 is produced only by the content-type
guard itself). -/
theorem decode_failure_maps_to_500 (ct : Option String) (inc : Bool)
    (msg : String) (r : Except String String)
    (hct : contentTypeOk ct = true) :
    detect_damage ct true none inc (.error msg) r =
      .errorResp 500 ("Erro ao processar imagem: " ++ msg) := by
  simp [detect_damage, hct]

theorem decode_failure_maps_to_500_witness :
    contentTypeOk (some "image/png") = true ∧
    detect_damage (some "image/png") true none true
        (.error "cannot identify image file") (.ok "") =
      .errorResp 500 "Erro ao processar imagem: cannot identify image file" :=
  ⟨by decide, decode_failure_maps_to_500 (some "image/png") true
    "cannot identify image file" (.ok "") (by decide)⟩

/-- C8 counterexample: a request with image content-type whose bytes fail to
decode yields a 500 response, not the 400 the claim requires. -/
theorem decode_failure_counterexample :
    detect_damage (some "image/jpeg") true none true
        (.error "cannot identify image file") (.ok "") =
      .errorResp 500 "Erro ao processar imagem: cannot identify image file" ∧
    detect_damage (some "image/jpeg") true none true
        (.error "cannot identify image file") (.ok "") ≠
      .errorResp 400 "Arquivo deve ser uma imagem" := by
  exact ⟨rfl, by decide⟩

/-- C9: when the detection pass succeeded, a failure while rendering the
annotated image leaves the request a 200 success carrying the full report
and damages array, with the annotated_image field absent; a successful
render differs from it only in that field. -/
theorem annotation_failure_nonfatal (ct : Option String) (merr : Option String)
    (dets : List RawDetection) (emsg s : String)
    (hct : contentTypeOk ct = true) :
    detect_damage ct true merr true (.ok dets) (.error emsg) =
      .okResp { damage_analysis := aggregate (damage_analysis dets),
                damages := damage_analysis dets,
                annotated_image := none } ∧
    detect_damage ct true merr true (.ok dets) (.ok s) =
      .okResp { damage_analysis := aggregate (damage_analysis dets),
                damages := damage_analysis dets,
                annotated_image :=
                  if 0 < dets.length then
                    some ("data:image/jpeg;base64," ++ s)
                  else none } := by
  constructor
  · simp [detect_damage, hct]
  · simp only [detect_damage, hct, Bool.not_true, if_neg]
    simp [Nat.pos_iff_ne_zero]

theorem annotation_failure_nonfatal_witness :
    contentTypeOk (some "image/jpeg") = true ∧
    detect_damage (some "image/jpeg") true none true
        (.ok [⟨"dent", 1, []⟩]) (.error "plot failed") =
      .okResp { damage_analysis :=
                  aggregate (damage_analysis [⟨"dent", 1, []⟩]),
                damages := damage_analysis [⟨"dent", 1, []⟩],
                annotated_image := none } :=
  ⟨by decide, (annotation_failure_nonfatal (some "image/jpeg") none
    [⟨"dent", 1, []⟩] "plot failed" "" (by decide)).1⟩

/-- C10: with include_annotated_image true but zero detections, the 200
response carries no annotated_image field, whatever the renderer would have
done. -/
theorem zero_detections_no_annotation (ct : Option String)
    (merr : Option String) (r : Except String String)
    (hct : contentTypeOk ct = true) :
    detect_damage ct true merr true (.ok []) r =
      .okResp { damage_analysis := aggregate [],
                damages := [],
                annotated_image := none } := by
  cases r <;> simp [detect_damage, hct, damage_analysis, damageAnalysisGo]

theorem zero_detections_no_annotation_witness :
    contentTypeOk (some "image/jpeg") = true ∧
    detect_damage (some "image/jpeg") true none true (.ok [])
        (.ok "wouldbeimage") =
      .okResp { damage_analysis := aggregate [],
                damages := [],
                annotated_image := none } :=
  ⟨by decide, zero_detections_no_annotation (some "image/jpeg") none
    (.ok "wouldbeimage") (by decide)⟩

/-- C7 counterexample: a network failure after two chunks were delivered
leaves the partial artifact (the delivered prefix) at the target path while
the error propagates — there is no temporary file and no atomic rename. -/
theorem fetch_atomicity_counterexample :
    (ensure_artifact (.failAfter [[1, 2], [3]] "connection reset")
        { fileAt := none, networkCalls := 0 }).1.fileAt = some [1, 2, 3] ∧
    (ensure_artifact (.failAfter [[1, 2], [3]] "connection reset")
        { fileAt := none, networkCalls := 0 }).1.fileAt ≠ none ∧
    (ensure_artifact (.failAfter [[1, 2], [3]] "connection reset")
        { fileAt := none, networkCalls := 0 }).2 = some "connection reset" := by
  decide

/-- C7 amended: if a file already exists at the path the fetch returns
immediately with no network call (so a second call after a successful fetch
issues no further network request); otherwise the code streams straight into
the target path, so a successful download leaves the full content, while a
mid-download failure leaves the delivered prefix at the target path and
propagates the fetch error. -/
theorem fetch_direct_write (s : FetchState) (net : NetResult) :
    (∀ c, s.fileAt = some c → ensure_artifact net s = (s, none)) ∧
    (s.fileAt = none → ∀ chunks, net = .ok chunks →
      ensure_artifact net s =
        (⟨some chunks.flatten, s.networkCalls + 1⟩, none)) ∧
    (s.fileAt = none → ∀ delivered err, net = .failAfter delivered err →
      ensure_artifact net s =
        (⟨some delivered.flatten, s.networkCalls + 1⟩, some err)) ∧
    (s.fileAt = none → ∀ chunks net2,
      ensure_artifact net2 (ensure_artifact (.ok chunks) s).1 =
        ((ensure_artifact (.ok chunks) s).1, none) ∧
      (ensure_artifact net2 (ensure_artifact (.ok chunks) s).1).1.networkCalls =
        s.networkCalls + 1) := by
  refine ⟨?_, ?_, ?_, ?_⟩
  · intro c hc
    simp [ensure_artifact, hc]
  · intro hn chunks hnet
    subst hnet
    simp [ensure_artifact, hn]
  · intro hn delivered err hnet
    subst hnet
    simp [ensure_artifact, hn]
  · intro hn chunks net2
    simp [ensure_artifact, hn]

theorem fetch_direct_write_witness :
    (ensure_artifact (.ok [[9]]) { fileAt := some [7], networkCalls := 1 } =
      ({ fileAt := some [7], networkCalls := 1 }, none)) ∧
    (ensure_artifact (.ok [[1], [2]]) { fileAt := none, networkCalls := 0 } =
      (⟨some [1, 2], 1⟩, none)) ∧
    (ensure_artifact (.failAfter [[1]] "timeout")
        { fileAt := none, networkCalls := 0 } = (⟨some [1], 1⟩, some "timeout")) := by
  have h1 := (fetch_direct_write { fileAt := some [7], networkCalls := 1 }
    (.ok [[9]])).1 [7] rfl
  have h2 := (fetch_direct_write { fileAt := none, networkCalls := 0 }
    (.ok [[1], [2]])).2.1 rfl [[1], [2]] rfl
  have h3 := (fetch_direct_write { fileAt := none, networkCalls := 0 }
    (.failAfter [[1]] "timeout")).2.2.1 rfl [[1]] "timeout" rfl
  exact ⟨h1, by rw [h2]; decide, by rw [h3]; decide⟩

/-- C1 counterexample: invoking the load body a second time (the schedule in
which the second invocation runs after the first completed) executes the
fetch + deserialize + warm-up section again — the returned flag is true in
both invocations, so two load executions run instead of exactly one for
N = 2 invocations. -/
theorem single_flight_counterexample :
    (download_and_load_model true (.ok ()) (.ok ()) initialGlobals).2 = true ∧
    (download_and_load_model true (.ok ()) (.ok ())
        (download_and_load_model true (.ok ()) (.ok ()) initialGlobals).1).2 =
      true ∧
    ((if (download_and_load_model true (.ok ()) (.ok ()) initialGlobals).2
        then 1 else 0) +
      (if (download_and_load_model true (.ok ()) (.ok ())
          (download_and_load_model true (.ok ()) (.ok ())
            initialGlobals).1).2 then 1 else 0) ≠ 1) := by
  decide

/-- C1 amended: the module spawns the background load trigger exactly once
at module-import time, and a single invocation from the initial globals runs one load
execution and leaves one terminal state — model_ready true on success,
model_error recorded on failure — which every subsequent reader of the
globals observes; but the load body carries no state guard, so any further
invocation (for example on a state whose artifact file already exists) runs
the deserialize + warm-up again. -/
theorem load_trigger_single_invocation (dl yolo : Except String Unit) :
    startupLoadThreads = 1 ∧
    (∀ e, dl = .error e →
      download_and_load_model true dl yolo initialGlobals =
        ({ initialGlobals with model_error := some e }, false)) ∧
    (dl = .ok () → yolo = .ok () →
      download_and_load_model true dl yolo initialGlobals =
        ({ fileExists := true, model_ready := true, model_error := none },
         true)) ∧
    (∀ e, dl = .ok () → yolo = .error e →
      download_and_load_model true dl yolo initialGlobals =
        ({ fileExists := true, model_ready := false,
           model_error := some ("Erro YOLO: " ++ e) }, true)) ∧
    (∀ opencv : Bool,
      (download_and_load_model opencv dl yolo initialGlobals).1.model_ready =
          true ∨
        (download_and_load_model opencv dl yolo initialGlobals).1.model_error ≠
          none) ∧
    (∀ s : Globals, s.fileExists = true →
      (download_and_load_model true dl yolo s).2 = true) := by
  refine ⟨rfl, ?_, ?_, ?_, ?_, ?_⟩
  · intro e he
    subst he
    rfl
  · intro h1 h2
    subst h1; subst h2
    rfl
  · intro e h1 h2
    subst h1; subst h2
    rfl
  · intro opencv
    cases opencv with
    | false => exact Or.inr (by simp [download_and_load_model, initialGlobals])
    | true =>
      cases dl with
      | error e => exact Or.inr (by simp [download_and_load_model, initialGlobals])
      | ok u =>
        cases yolo with
        | error e =>
          exact Or.inr (by cases u; simp [download_and_load_model, initialGlobals])
        | ok v => exact Or.inl (by cases u; cases v; rfl)
  · intro s hs
    cases yolo with
    | error e => simp [download_and_load_model, hs]
    | ok v => cases v; simp [download_and_load_model, hs]

theorem load_trigger_single_invocation_witness :
    download_and_load_model true (.ok ()) (.ok ()) initialGlobals =
      ({ fileExists := true, model_ready := true, model_error := none },
       true) ∧
    (download_and_load_model true (.ok ()) (.ok ())
        { fileExists := true, model_ready := true, model_error := none }).2 =
      true := by
  have h := load_trigger_single_invocation (.ok ()) (.ok ())
  exact ⟨h.2.2.1 rfl rfl,
    h.2.2.2.2.2 { fileExists := true, model_ready := true, model_error := none }
      rfl⟩

end YoloDamage
